import Mathlib

/-!
# Verification of the SDNA workflow-composition engine

A shallow embedding of the core of the `sdna` repository:

* `tags.py`   — tag extraction from free text (`extract_tags`, `tag_equals`);
* `ariadne.py` — context elements and `AriadneChain.execute` (the Thread);
* `poimandres.py` — the generation step wrapper;
* `sdna.py`   — `SDNAC.execute` (Unit of Work) and `SDNAFlow.execute` (Flow);
* `duo.py` / `duo_v2.py` — the 2-stage and 4-stage refinement loops.

Python dictionaries are modelled as association lists with in-place
overwrite (`ctxSet`), preserving insertion order exactly as CPython dicts
do.  Python values are modelled by the closed inductive `Value`.  External
collaborators (the file system, `importlib`, `os.environ`, the Brain
retrieval subsystem, and the `agent_step` model call) are parameters of a
`World` structure; a Python exception raised by the code or a collaborator
is an `Except.error` carrying the exception message.
-/

/-- Python values, as far as the engine inspects them. -/
inductive Value where
  | vStr (s : String)
  | vBool (b : Bool)
  | vInt (n : Int)
  | vNone
  | vList (l : List Value)
  | vDict (d : List (String × Value))
deriving Repr

/-- Python truthiness (`bool(v)`), used by `if approved:` and `dict.get(k, False)`. -/
def Value.truthy : Value → Bool
  | .vStr s => !(s == "")
  | .vBool b => b
  | .vInt n => !(n == 0)
  | .vNone => false
  | .vList l => !l.isEmpty
  | .vDict d => !d.isEmpty

/-- A context: Python `Dict[str, Any]` as an insertion-ordered association list. -/
abbrev Ctx := List (String × Value)

/-- Python `d[k] = v`: overwrite in place if the key exists, else append. -/
def ctxSet : Ctx → String → Value → Ctx
  | [], k, v => [(k, v)]
  | (k', v') :: rest, k, v =>
      if k' = k then (k, v) :: rest else (k', v') :: ctxSet rest k v

/-- Python `d.get(k)` (as `Option`). -/
def ctxGet : Ctx → String → Option Value
  | [], _ => none
  | (k', v') :: rest, k => if k' = k then some v' else ctxGet rest k

/-- Python `d.get(k, default)`. -/
def ctxGetD (c : Ctx) (k : String) (d : Value) : Value :=
  match ctxGet c k with
  | some v => v
  | none => d

/-- Python `d.update(upd)`: set every pair of `upd` in order. -/
def ctxUpdate (c : Ctx) (upd : Ctx) : Ctx :=
  upd.foldl (fun acc kv => ctxSet acc kv.1 kv.2) c

/-- The whitespace set stripped by Python `str.strip()` (ASCII part). -/
def isPySpace (c : Char) : Bool :=
  c == ' ' || c == '\t' || c == '\n' || c == '\x0d' || c == '\x0b' || c == '\x0c'

/-- Python `s.strip()`: drop leading and trailing whitespace. -/
def pyStrip (s : String) : String :=
  String.mk (((s.data.dropWhile isPySpace).reverse.dropWhile isPySpace).reverse)

/-- Python `s.lower()` (ASCII case folding, which is all the engine relies on). -/
def pyLower (s : String) : String :=
  String.mk (s.data.map Char.toLower)

/-!
## Tag extraction (`tags.py`)

`extract_tags` searches, per tag, for `rf"<{tag}>(.*?)</{tag}>"` with
`re.DOTALL | re.IGNORECASE` and keeps `match.group(1).strip()`.  With a
lazy group, `re.search` returns the match at the leftmost feasible start:
the first case-insensitive occurrence of `<tag>`, with the captured group
running up to the first case-insensitive occurrence of `</tag>` after it.
(If the first `<tag>` has no closing tag after it, no later one has
either, so the search fails.)  `DOTALL` lets the group span newlines, so
the capture is the raw character range.  Tag names are assumed to contain
no regex metacharacters, which holds for every tag the engine uses.
-/

/-- Index of the first occurrence of `pat` as a contiguous sublist. -/
def findSubIdx (pat : List Char) : List Char → Option Nat
  | [] => if pat.isEmpty then some 0 else none
  | c :: rest =>
      if pat.isPrefixOf (c :: rest) then some 0
      else (findSubIdx pat rest).map (· + 1)

/-- Raw captured group of the first match of `<tag>(.*?)</tag>`
(case-insensitive, dot-matches-newline), before stripping. -/
def rawFirstMatch (text : String) (tag : String) : Option String :=
  let lowered := text.data.map Char.toLower
  let openTok := ("<" ++ tag ++ ">").data.map Char.toLower
  let closeTok := ("</" ++ tag ++ ">").data.map Char.toLower
  match findSubIdx openTok lowered with
  | none => none
  | some i =>
      let contentStart := i + openTok.length
      match findSubIdx closeTok (lowered.drop contentStart) with
      | none => none
      | some j => some (String.mk ((text.data.drop contentStart).take j))

/-- Model of `tags.extract_tags`: one entry per requested tag name, first-match
content stripped, `none` when the tag is absent. -/
def extract_tags (output : String) (tagNames : List String) :
    List (String × Option String) :=
  tagNames.map (fun t => (t, (rawFirstMatch output t).map pyStrip))

/-- Python `extracted.get(tag)` on the result of `extract_tags` (absent key
and stored `None` both give `None`). -/
def tagsGet (extracted : List (String × Option String)) (tag : String) :
    Option String :=
  match extracted.lookup tag with
  | some v => v
  | none => none

/-- Model of `tags.tag_equals`: tag present and case-insensitively equal to `value`. -/
def tag_equals (extracted : List (String × Option String)) (tag : String)
    (value : String) : Bool :=
  match tagsGet extracted tag with
  | some actual => pyLower actual == pyLower value
  | none => false

example : extract_tags "<a>1</a><b>2</b>" ["a", "b", "c"] =
    [("a", some "1"), ("b", some "2"), ("c", none)] := by decide

example : extract_tags "<a>\n 1 \n</a>" ["a"] = [("a", some "1")] := by decide

/-!
## External collaborators

Everything the engine calls outside its own modules, bundled as a `World`:
the file system (`open(...).read()`), dynamic function invocation
(`importlib.import_module` + `getattr` + call), `os.environ`, the Brain
knowledge-retrieval collaborator (`Brain.think`, yielding synthesized
instructions plus `(name, relevance)` pairs for the neurons used), and the
model-call collaborator `agent_step` from `runner.py`.  `Except.error msg`
models a raised exception whose `str` is `msg`.
-/

/-- Model of `config.HermesConfig`, reduced to the fields the verified code reads.
The engine only threads it through to `agent_step`. -/
structure HermesConfig where
  name : String := ""
  goal : String := ""
deriving Repr

/-- Model of `runner.StepStatus`. -/
inductive StepStatus where
  | success
  | blocked
  | error
  | timeout
deriving Repr, DecidableEq

/-- Model of `runner.StepResult` (the fields `poimandres.execute` reads; the parsed
blocked report and raw message list are never inspected by the verified
code and are omitted). -/
structure StepResult where
  status : StepStatus
  output : Ctx := []
  error : Option String := none
  sessionId : Option String := none
deriving Repr

/-- The external world: every collaborator outside the verified modules. -/
structure World where
  readFile : String → Except String String
  callFunction : String → String → List (String × Value) → Except String Value
  osEnv : String → Option String
  brainThink : String → Value → Except String (String × List (String × Value))
  agentStep : HermesConfig → Ctx → Except String StepResult

/-!
## Context elements (`ariadne.py`, `config.py`)
-/

/-- Model of `ariadne.HumanInput`: the human-gate element. -/
structure HumanInput where
  prompt : String
  inputKey : String
  choices : Option (List String) := none
deriving Repr

/-- Model of `ariadne.InjectConfig`: inject external data into context. -/
structure InjectConfig where
  source : String
  injectAs : String
  path : Option String := none
  module : Option String := none
  func : Option String := none
  args : List (String × Value) := []
  value : Value := Value.vNone
  envVar : Option String := none
  default : Option String := none
deriving Repr

/-- Model of `InjectConfig.execute`.  Mutation is atomic per element: every failure
point in the Python code (`open`, `import_module`, `getattr`, the invoked
function) occurs before the single assignment to `context[inject_as]`. -/
def InjectConfig.execute (w : World) (cfg : InjectConfig) (context : Ctx) :
    Except String Ctx :=
  if cfg.source = "file" then
    match cfg.path with
    | none => Except.error "TypeError"
    | some p =>
        match w.readFile p with
        | Except.ok content =>
            Except.ok (ctxSet context cfg.injectAs (Value.vStr content))
        | Except.error e => Except.error e
  else if cfg.source = "function" then
    match cfg.module, cfg.func with
    | some m, some f =>
        let resolved := cfg.args.map (fun kv =>
          (kv.1,
            match kv.2 with
            | Value.vStr s =>
                if s.startsWith "$" then ctxGetD context (s.drop 1) (Value.vStr s)
                else Value.vStr s
            | v => v))
        match w.callFunction m f resolved with
        | Except.ok v => Except.ok (ctxSet context cfg.injectAs v)
        | Except.error e => Except.error e
    | _, _ => Except.error "TypeError"
  else if cfg.source = "literal" then
    Except.ok (ctxSet context cfg.injectAs cfg.value)
  else if cfg.source = "env" then
    match cfg.envVar with
    | none => Except.error "TypeError"
    | some ev =>
        let v := match w.osEnv ev with
          | some s => Value.vStr s
          | none =>
              match cfg.default with
              | some d => Value.vStr d
              | none => Value.vNone
        Except.ok (ctxSet context cfg.injectAs v)
  else
    Except.ok context

/-- Model of `ariadne.WeaveConfig` (context surgery; the current code injects a
pending-marker dict and cannot fail). -/
structure WeaveConfig where
  sourceSession : Option String := none
  targetSession : Option String := none
  startIndex : Option Int := none
  endIndex : Option Int := none
  injectAs : String := "woven_context"
deriving Repr

/-- Lift an optional string to a Python value (`None` or the string). -/
def optStrVal : Option String → Value
  | some s => Value.vStr s
  | none => Value.vNone

/-- Lift an optional integer to a Python value. -/
def optIntVal : Option Int → Value
  | some n => Value.vInt n
  | none => Value.vNone

/-- Model of `WeaveConfig.execute`. -/
def WeaveConfig.execute (cfg : WeaveConfig) (context : Ctx) : Ctx :=
  ctxSet context cfg.injectAs
    (Value.vDict
      [("source", optStrVal cfg.sourceSession),
       ("range", Value.vList [optIntVal cfg.startIndex, optIntVal cfg.endIndex]),
       ("_pending", Value.vBool true)])

/-- Model of `ariadne.BrainInjectConfig`: inject synthesized knowledge. -/
structure BrainInjectConfig where
  brainDirectory : String
  queryKey : String
  injectAs : String
  maxNeurons : Nat := 5
  extensions : List String := [".md", ".txt", ".py"]
deriving Repr

/-- Model of `BrainInjectConfig.execute`: resolve the query (a `$key` is looked up
in context with default `""`), call the Brain collaborator, store the
instructions and the `(name, relevance)` neuron list. -/
def BrainInjectConfig.execute (w : World) (cfg : BrainInjectConfig)
    (context : Ctx) : Except String Ctx :=
  let query :=
    if cfg.queryKey.startsWith "$" then
      ctxGetD context (cfg.queryKey.drop 1) (Value.vStr "")
    else Value.vStr cfg.queryKey
  match w.brainThink cfg.brainDirectory query with
  | Except.error e => Except.error e
  | Except.ok res =>
      let c1 := ctxSet context cfg.injectAs (Value.vStr res.1)
      Except.ok (ctxSet c1 (cfg.injectAs ++ "_neurons")
        (Value.vList (res.2.map (fun nr =>
          Value.vDict [("name", Value.vStr nr.1), ("relevance", nr.2)]))))

/-- Model of `config.HermesConfigInput`: extraction rule for one dovetailed input.
Transforms are modelled as total functions (no claim exercises one). -/
structure HermesConfigInput where
  sourceKey : String
  transform : Option (Value → Value) := none
  required : Bool := true
  default : Value := Value.vNone

/-- Python `key.split('.')`. -/
def splitKey (key : String) : List String :=
  key.splitOn "."

/-- Python `part.isdigit()` (ASCII digits). -/
def isDigits (part : String) : Bool :=
  !(part == "") && part.data.all Char.isDigit

/-- The walk in `HermesConfigInput.extract`: descend dicts by key and
lists/tuples by numeric index; anything else (or a miss) yields `None`. -/
def walkPath : Value → List String → Value
  | v, [] => v
  | Value.vNone, _ :: _ => Value.vNone
  | Value.vDict d, part :: rest =>
      walkPath (match d.lookup part with
        | some x => x
        | none => Value.vNone) rest
  | Value.vList l, part :: rest =>
      if isDigits part then
        walkPath (l.getD (part.toNat?.getD 0) Value.vNone) rest
      else Value.vNone
  | _, _ :: _ => Value.vNone

/-- Model of `HermesConfigInput.extract`: raises `ValueError` when a required input
is missing; an optional miss returns the default untransformed. -/
def HermesConfigInput.extract (inp : HermesConfigInput) (data : Ctx) :
    Except String Value :=
  match walkPath (Value.vDict data) (splitKey inp.sourceKey) with
  | Value.vNone =>
      if inp.required then
        Except.error ("Required input " ++ inp.sourceKey ++ " not found")
      else Except.ok inp.default
  | v =>
      Except.ok (match inp.transform with
        | some f => f v
        | none => v)

/-- Model of `config.DovetailModel`: maps a previous step's outputs to the next
step's inputs. -/
structure DovetailModel where
  name : String := ""
  expectedOutputs : List String := []
  inputMap : List (String × HermesConfigInput) := []

/-- The walk in `DovetailModel.validate_outputs`: dict descent only. -/
def walkDictOnly : Value → List String → Value
  | v, [] => v
  | Value.vDict d, part :: rest =>
      walkDictOnly (match d.lookup part with
        | some x => x
        | none => Value.vNone) rest
  | _, _ :: _ => Value.vNone

/-- Boolean test for the `None` value. -/
def Value.isVNone : Value → Bool
  | Value.vNone => true
  | _ => false

/-- Model of `DovetailModel.validate_outputs`: the expected-output keys whose walk
ends at `None`. -/
def DovetailModel.validateOutputs (d : DovetailModel) (result : Ctx) :
    List String :=
  d.expectedOutputs.filter
    (fun key => (walkDictOnly (Value.vDict result) (splitKey key)).isVNone)

/-- The `next_inputs` accumulation loop in `prepare_next_inputs`. -/
def prepareInputsLoop (prev : Ctx) (acc : Ctx) :
    List (String × HermesConfigInput) → Except String Ctx
  | [] => Except.ok acc
  | (k, inp) :: rest =>
      match inp.extract prev with
      | Except.ok v => prepareInputsLoop prev (ctxSet acc k v) rest
      | Except.error e => Except.error e

/-- Model of `DovetailModel.prepare_next_inputs` (the missing-outputs message is
abbreviated; no claim inspects its text). -/
def DovetailModel.prepareNextInputs (d : DovetailModel) (prev : Ctx) :
    Except String Ctx :=
  let missing := d.validateOutputs prev
  if missing.isEmpty then prepareInputsLoop prev [] d.inputMap
  else
    Except.error ("Dovetail " ++ d.name ++ " missing outputs: " ++
      String.intercalate ", " missing)

/-!
## The Thread (`AriadneChain.execute`)
-/

/-- The closed union `AriadneElement` from `ariadne.py`. -/
inductive AriadneElem where
  | humanInput (h : HumanInput)
  | injectCfg (c : InjectConfig)
  | weaveCfg (c : WeaveConfig)
  | brainCfg (c : BrainInjectConfig)
  | dovetail (d : DovetailModel)

/-- Is this element the human gate? -/
def isHumanGate : AriadneElem → Bool
  | .humanInput _ => true
  | _ => false

/-- One non-gate element application — the body of the corresponding
`isinstance` branch of `AriadneChain.execute` (for a `HumanInput` the
chain suspends before applying anything, so that case is inert here). -/
def elemApply (w : World) : AriadneElem → Ctx → Except String Ctx
  | .humanInput _, ctx => Except.ok ctx
  | .injectCfg c, ctx => InjectConfig.execute w c ctx
  | .weaveCfg c, ctx => Except.ok (WeaveConfig.execute c ctx)
  | .brainCfg c, ctx => BrainInjectConfig.execute w c ctx
  | .dovetail d, ctx =>
      match d.prepareNextInputs ctx with
      | Except.ok nextInputs => Except.ok (ctxUpdate ctx nextInputs)
      | Except.error e => Except.error e

/-- Model of `ariadne.AriadneStatus`. -/
inductive AriadneStatus where
  | success
  | error
  | awaitingInput
deriving Repr, DecidableEq

/-- Model of `ariadne.AriadneResult`. -/
structure AriadneResult where
  status : AriadneStatus
  context : Ctx := []
  error : Option String := none
  pendingPrompt : Option String := none
  pendingInputKey : Option String := none
  pendingChoices : Option (List String) := none
  resumeAt : Option Nat := none

/-- Model of `ariadne.AriadneChain`. -/
structure AriadneChain where
  name : String
  elements : List AriadneElem

/-- The `for i in range(start_at, len(self.elements))` loop of
`AriadneChain.execute`: `rest` is the remaining slice of `elements` and
`i` the absolute index of its head.  A `HumanInput` suspends with
`resume_at = i + 1`; any other element is applied, an exception becoming
the `Error` outcome with the pre-element context. -/
def execLoop (w : World) : List AriadneElem → Nat → Ctx → AriadneResult
  | [], _, ctx => { status := .success, context := ctx }
  | .humanInput h :: _, i, ctx =>
      { status := .awaitingInput, context := ctx,
        pendingPrompt := some h.prompt, pendingInputKey := some h.inputKey,
        pendingChoices := h.choices, resumeAt := some (i + 1) }
  | .injectCfg c :: rest, i, ctx =>
      match InjectConfig.execute w c ctx with
      | Except.ok c2 => execLoop w rest (i + 1) c2
      | Except.error m => { status := .error, context := ctx, error := some m }
  | .weaveCfg c :: rest, i, ctx =>
      execLoop w rest (i + 1) (WeaveConfig.execute c ctx)
  | .brainCfg c :: rest, i, ctx =>
      match BrainInjectConfig.execute w c ctx with
      | Except.ok c2 => execLoop w rest (i + 1) c2
      | Except.error m => { status := .error, context := ctx, error := some m }
  | .dovetail d :: rest, i, ctx =>
      match d.prepareNextInputs ctx with
      | Except.ok nextInputs => execLoop w rest (i + 1) (ctxUpdate ctx nextInputs)
      | Except.error m => { status := .error, context := ctx, error := some m }

/-- Model of `AriadneChain.execute(context, start_at)`. -/
def AriadneChain.execute (w : World) (ch : AriadneChain) (context : Option Ctx)
    (startAt : Nat) : AriadneResult :=
  execLoop w (ch.elements.drop startAt) startAt
    (match context with
     | some c => c
     | none => [])

/-- Sequential application of a gate-free slice of elements, used to state
hypotheses about prefixes of a Thread. -/
def applyAll (w : World) : List AriadneElem → Ctx → Except String Ctx
  | [], ctx => Except.ok ctx
  | e :: rest, ctx =>
      match elemApply w e ctx with
      | Except.ok c => applyAll w rest c
      | Except.error m => Except.error m

/-!
## The Generation Step (`poimandres.execute`)
-/

/-- Model of `poimandres.PoimandresResult`. -/
structure PoimandresResult where
  success : Bool
  output : Ctx := []
  blocked : Bool := false
  error : Option String := none
  stepResult : Option StepResult := none

/-- Model of `poimandres.execute`: run `agent_step`, classify `BLOCKED` before
`ERROR` before success (a `TIMEOUT` status therefore lands in the success
branch, exactly as the Python `if`/`elif`/`else` does); a raised exception
is caught and becomes an error result with the exception message. -/
def poimandresExecute (w : World) (config : HermesConfig) (context : Ctx) :
    PoimandresResult :=
  match w.agentStep config context with
  | Except.error e => { success := false, error := some e }
  | Except.ok sr =>
      if sr.status = StepStatus.blocked then
        { success := false, blocked := true, stepResult := some sr }
      else if sr.status = StepStatus.error then
        { success := false, error := sr.error, stepResult := some sr }
      else
        { success := true, output := sr.output, stepResult := some sr }

/-!
## The Unit of Work (`SDNAC`) and the Flow (`SDNAFlow`), from `sdna.py`
-/

/-- Model of `sdna.SDNAStatus`. -/
inductive SDNAStatus where
  | success
  | blocked
  | error
  | awaitingInput
deriving Repr, DecidableEq

/-- Model of `sdna.SDNAResult`.  Note the fields it does NOT have: there is no
`pending_choices` and no per-unit resume index; `resume_path` is only ever
set by `SDNAFlow`. -/
structure SDNAResult where
  status : SDNAStatus
  context : Ctx := []
  error : Option String := none
  resumePath : Option (List Nat) := none
  pendingPrompt : Option String := none
  pendingInputKey : Option String := none

/-- Model of `sdna.SDNAC`: one AriadneChain coupled to one HermesConfig. -/
structure SDNAC where
  name : String
  ariadne : AriadneChain
  config : HermesConfig

/-- Model of `SDNAC.execute`: run the chain; pass `AWAITING_INPUT` (keeping prompt
and input key only) and `ERROR` through; otherwise run Poimandres and map
its classification, merging its output into the context on success. -/
def SDNAC.execute (w : World) (u : SDNAC) (context : Option Ctx) : SDNAResult :=
  let ar := AriadneChain.execute w u.ariadne context 0
  let ctx := ar.context
  if ar.status = AriadneStatus.awaitingInput then
    { status := .awaitingInput, context := ctx,
      pendingPrompt := ar.pendingPrompt, pendingInputKey := ar.pendingInputKey }
  else if ar.status = AriadneStatus.error then
    { status := .error, context := ctx, error := ar.error }
  else
    let pr := poimandresExecute w u.config ctx
    if pr.blocked then
      { status := .blocked, context := ctx }
    else if !pr.success then
      { status := .error, context := ctx, error := pr.error }
    else
      { status := .success, context := ctxUpdate ctx pr.output }

/-- Model of `sdna.SDNAFlow`. -/
structure SDNAFlow where
  name : String
  sdnacs : List SDNAC

/-- The `for i, sdnac in enumerate(self.sdnacs)` loop of
`SDNAFlow.execute`: thread the context forward; at the first non-success
result set `resume_path = [i]` and return it. -/
def flowLoop (w : World) : List SDNAC → Nat → Ctx → SDNAResult
  | [], _, ctx => { status := .success, context := ctx }
  | u :: rest, i, ctx =>
      let r := SDNAC.execute w u (some ctx)
      if r.status = SDNAStatus.success then flowLoop w rest (i + 1) r.context
      else { r with resumePath := some [i] }

/-- Model of `SDNAFlow.execute`. -/
def SDNAFlow.execute (w : World) (f : SDNAFlow) (context : Option Ctx) :
    SDNAResult :=
  flowLoop w f.sdnacs 0
    (match context with
     | some c => c
     | none => [])

/-!
## The 2-stage refinement loop (`duo.py`)
-/

/-- Model of `duo.DUOStatus`. -/
inductive DUOStatus where
  | success
  | maxIterations
  | blocked
  | error
  | awaitingInput
deriving Repr, DecidableEq

/-- Model of `duo.DUOResult`. -/
structure DUOResult where
  status : DUOStatus
  context : Ctx := []
  iterations : Nat := 0
  error : Option String := none
  ovpFeedback : Option Value := none

/-- Model of `duo.DUOAgent`: target and observer Units plus the loop bound and the
approval/feedback context keys. -/
structure DUOAgent where
  name : String
  target : SDNAC
  ovp : SDNAC
  maxIterations : Nat := 3
  approvalKey : String := "ovp_approved"
  feedbackKey : String := "ovp_feedback"

/-- Model of `DUOAgent.execute` together with call-count instrumentation for the
two constituent Units. -/
structure DUOTrace where
  result : DUOResult
  targetCalls : Nat
  ovpCalls : Nat

/-- The `for iteration in range(self.max_iterations)` loop of
`DUOAgent.execute`; `r` is the number of remaining iterations
(`max_iterations - iter0`) and `iter0` the 0-based iteration index.  The
target's `AWAITING_INPUT`/`BLOCKED`/`ERROR` all terminate before the
observer runs; the observer's `ERROR` and `BLOCKED` terminate the loop,
while any other observer status (including `AWAITING_INPUT`, which the
Python code does not check) falls through to the approval check. -/
def duoLoop (w : World) (a : DUOAgent) :
    Nat → Nat → Ctx → Nat → Nat → DUOTrace
  | 0, _, ctx, tc, oc =>
      ⟨{ status := .maxIterations, context := ctx,
         iterations := a.maxIterations,
         ovpFeedback := ctxGet ctx a.feedbackKey }, tc, oc⟩
  | r + 1, iter0, ctx, tc, oc =>
      let ctx0 := ctxSet ctx "duo_iteration" (Value.vInt (iter0 + 1))
      let tres := SDNAC.execute w a.target (some ctx0)
      let ctx1 := ctxSet tres.context "target_output"
        (ctxGetD tres.context "text" (Value.vStr ""))
      if tres.status = SDNAStatus.awaitingInput then
        ⟨{ status := .awaitingInput, context := ctx1, iterations := iter0 + 1 },
          tc + 1, oc⟩
      else if tres.status = SDNAStatus.blocked then
        ⟨{ status := .blocked, context := ctx1, iterations := iter0 + 1 },
          tc + 1, oc⟩
      else if tres.status = SDNAStatus.error then
        ⟨{ status := .error, context := ctx1, iterations := iter0 + 1,
           error := tres.error }, tc + 1, oc⟩
      else
        let ores := SDNAC.execute w a.ovp (some ctx1)
        let ctx2 := ores.context
        if ores.status = SDNAStatus.error then
          ⟨{ status := .error, context := ctx2, iterations := iter0 + 1,
             error := ores.error }, tc + 1, oc + 1⟩
        else if ores.status = SDNAStatus.blocked then
          ⟨{ status := .blocked, context := ctx2, iterations := iter0 + 1 },
            tc + 1, oc + 1⟩
        else
          let approved := (ctxGetD ctx2 a.approvalKey (Value.vBool false)).truthy
          let feedback := ctxGet ctx2 a.feedbackKey
          if approved then
            ⟨{ status := .success, context := ctx2, iterations := iter0 + 1,
               ovpFeedback := feedback }, tc + 1, oc + 1⟩
          else
            duoLoop w a r (iter0 + 1) ctx2 (tc + 1) (oc + 1)

/-- Model of `DUOAgent.execute`, with call counts.  The initial context gets
`duo_iteration = 0` before the loop, as in the source. -/
def DUOAgent.executeTrace (w : World) (a : DUOAgent) (context : Option Ctx) :
    DUOTrace :=
  let ctx :=
    (match context with
     | some c => c
     | none => [])
  duoLoop w a a.maxIterations 0 (ctxSet ctx "duo_iteration" (Value.vInt 0)) 0 0

/-- Model of `DUOAgent.execute` proper (the traced run, without the counters). -/
def DUOAgent.execute (w : World) (a : DUOAgent) (context : Option Ctx) :
    DUOResult :=
  (DUOAgent.executeTrace w a context).result

/-!
## The 4-stage refinement loop (`duo_v2.py`)
-/

/-- Model of `duo_v2.DUOv2Status` (note: `blocked` exists in the enum but the code
never produces it). -/
inductive DUOv2Status where
  | success
  | maxIterations
  | blocked
  | error
deriving Repr, DecidableEq

/-- Model of `duo_v2.DUOv2Result`.  The error returns in the source construct the
result without a `context` argument, so `context` defaults to `{}`. -/
structure DUOv2Result where
  status : DUOv2Status
  context : Ctx := []
  iterations : Nat := 0
  error : Option String := none
  finalDeliverable : Option Value := none

/-- Model of `duo_v2.DuoAgentV2`: challenger, generator, gate, observer. -/
structure DuoAgentV2 where
  name : String
  ariadne : SDNAC
  poimandres : SDNAC
  ariadneGate : SDNAC
  ovp : SDNAC
  maxIterations : Nat := 5

/-- Model of `DuoAgentV2.execute` together with call-count instrumentation for the
four stages. -/
structure V2Trace where
  result : DUOv2Result
  challengeCalls : Nat
  targetCalls : Nat
  gateCalls : Nat
  ovpCalls : Nat

/-- The `result.context.get("text", "")` read in `duo_v2.py`.  Every
producer of `"text"` in the engine writes a string; a non-string value
(on which `re.search` would raise) is not modelled and reads as `""`. -/
def textOf (c : Ctx) : String :=
  match ctxGet c "text" with
  | some (Value.vStr s) => s
  | _ => ""

/-- Python `a or b` for an optional string `a` (`None` and `""` are falsy). -/
def pyOrStr (a : Option String) (b : String) : String :=
  match a with
  | some s => if s = "" then b else s
  | none => b

/-- The `for iteration in range(self.max_iterations)` loop of
`DuoAgentV2.execute`.  Each stage is checked for `ERROR` only (`BLOCKED`
and `AWAITING_INPUT` fall through, as in the source); a failed gate seeds
`attempt_feedback` and restarts from the challenge stage without running
the observer; observer approval ends the loop with the last deliverable. -/
def duoV2Loop (w : World) (a : DuoAgentV2) :
    Nat → Nat → Ctx → Nat → Nat → Nat → Nat → V2Trace
  | 0, _, ctx, cc, tc, gc, oc =>
      ⟨{ status := .maxIterations, context := ctx,
         iterations := a.maxIterations }, cc, tc, gc, oc⟩
  | r + 1, iter0, ctx, cc, tc, gc, oc =>
      let ctx0 := ctxSet ctx "duo_iteration" (Value.vInt (iter0 + 1))
      let res1 := SDNAC.execute w a.ariadne (some ctx0)
      if res1.status = SDNAStatus.error then
        ⟨{ status := .error, error := res1.error, iterations := iter0 + 1 },
          cc + 1, tc, gc, oc⟩
      else
        let out1 := textOf res1.context
        let tags1 := extract_tags out1 ["challenge"]
        let ctx1 := ctxSet ctx0 "challenge"
          (Value.vStr (pyOrStr (tagsGet tags1 "challenge") out1))
        let res2 := SDNAC.execute w a.poimandres (some ctx1)
        if res2.status = SDNAStatus.error then
          ⟨{ status := .error, error := res2.error, iterations := iter0 + 1 },
            cc + 1, tc + 1, gc, oc⟩
        else
          let out2 := textOf res2.context
          let tags2 := extract_tags out2 ["deliverable"]
          let ctx2 := ctxSet ctx1 "deliverable"
            (Value.vStr (pyOrStr (tagsGet tags2 "deliverable") out2))
          let res3 := SDNAC.execute w a.ariadneGate (some ctx2)
          if res3.status = SDNAStatus.error then
            ⟨{ status := .error, error := res3.error, iterations := iter0 + 1 },
              cc + 1, tc + 1, gc + 1, oc⟩
          else
            let out3 := textOf res3.context
            let tags3 := extract_tags out3 ["gate-passed", "gate-feedback"]
            if !tag_equals tags3 "gate-passed" "true" then
              let ctx3 := ctxSet ctx2 "attempt_feedback"
                (Value.vStr (pyOrStr (tagsGet tags3 "gate-feedback")
                  "Gate rejected, try again"))
              duoV2Loop w a r (iter0 + 1) ctx3 (cc + 1) (tc + 1) (gc + 1) oc
            else
              let res4 := SDNAC.execute w a.ovp (some ctx2)
              if res4.status = SDNAStatus.error then
                ⟨{ status := .error, error := res4.error,
                   iterations := iter0 + 1 }, cc + 1, tc + 1, gc + 1, oc + 1⟩
              else
                let out4 := textOf res4.context
                let tags4 := extract_tags out4 ["ovp-approved", "ovp-feedback"]
                if tag_equals tags4 "ovp-approved" "true" then
                  ⟨{ status := .success, context := ctx2,
                     iterations := iter0 + 1,
                     finalDeliverable := ctxGet ctx2 "deliverable" },
                    cc + 1, tc + 1, gc + 1, oc + 1⟩
                else
                  let ctx4 := ctxSet ctx2 "attempt_feedback"
                    (Value.vStr (pyOrStr (tagsGet tags4 "ovp-feedback")
                      "OVP rejected, try again"))
                  duoV2Loop w a r (iter0 + 1) ctx4 (cc + 1) (tc + 1) (gc + 1)
                    (oc + 1)

/-- Model of `DuoAgentV2.execute`, with call counts.  The initial context gets
`attempt_feedback = "(first attempt)"` before the loop. -/
def DuoAgentV2.executeTrace (w : World) (a : DuoAgentV2)
    (context : Option Ctx) : V2Trace :=
  let ctx :=
    (match context with
     | some c => c
     | none => [])
  duoV2Loop w a a.maxIterations 0
    (ctxSet ctx "attempt_feedback" (Value.vStr "(first attempt)")) 0 0 0 0

/-- Model of `DuoAgentV2.execute` proper (the traced run, without the counters). -/
def DuoAgentV2.execute (w : World) (a : DuoAgentV2) (context : Option Ctx) :
    DUOv2Result :=
  (DuoAgentV2.executeTrace w a context).result

/-!
## Helper lemmas
-/

/-- Reading back the key just written. -/
theorem ctxGet_set_self (c : Ctx) (k : String) (v : Value) :
    ctxGet (ctxSet c k v) k = some v := by
  induction c with
  | nil => simp [ctxSet, ctxGet]
  | cons kv rest ih =>
      by_cases h : kv.1 = k <;> simp [ctxSet, ctxGet, h, ih]

/-- Writing one key leaves every other key unchanged. -/
theorem ctxGet_set_ne (c : Ctx) (k k2 : String) (v : Value) (h : k ≠ k2) :
    ctxGet (ctxSet c k v) k2 = ctxGet c k2 := by
  induction c with
  | nil => simp [ctxSet, ctxGet, h]
  | cons kv rest ih =>
      by_cases h2 : kv.1 = k
      · subst h2
        simp [ctxSet, ctxGet, h]
      · by_cases h3 : kv.1 = k2 <;>
          simp [ctxSet, ctxGet, h2, h3, ih, Ne.symm h]

/-- Idempotence of `dropWhile`. -/
theorem dropWhile_after_dropWhile (p : Char → Bool) (l : List Char) :
    (l.dropWhile p).dropWhile p = l.dropWhile p := by
  induction l with
  | nil => rfl
  | cons a t ih => by_cases h : p a <;> simp [List.dropWhile_cons, h, ih]

/-- The head surviving a `dropWhile` fails the predicate. -/
theorem dropWhile_head_false (p : Char → Bool) (l : List Char) (c : Char)
    (rest : List Char) (h : l.dropWhile p = c :: rest) : p c = false := by
  induction l with
  | nil => simp [List.dropWhile] at h
  | cons a t ih =>
      by_cases ha : p a
      · exact ih (by simpa [List.dropWhile_cons, ha] using h)
      · rw [List.dropWhile_cons, if_neg ha] at h
        cases h
        simpa using ha

/-- A trailing element failing the predicate survives `dropWhile` intact. -/
theorem dropWhile_append_singleton (p : Char → Bool) (c : Char)
    (h : p c = false) (m : List Char) :
    (m ++ [c]).dropWhile p = m.dropWhile p ++ [c] := by
  induction m with
  | nil => simp [List.dropWhile_cons, h]
  | cons a t ih => by_cases ha : p a <;> simp [List.dropWhile_cons, ha, ih]

/-- List-level core of strip idempotence. -/
theorem stripList_idem (l : List Char) :
    (((((((l.dropWhile isPySpace).reverse.dropWhile
          isPySpace).reverse).dropWhile isPySpace).reverse).dropWhile
            isPySpace).reverse) =
    ((l.dropWhile isPySpace).reverse.dropWhile isPySpace).reverse := by
  cases hA : l.dropWhile isPySpace with
  | nil => simp
  | cons c A2 =>
      have hc : isPySpace c = false := dropWhile_head_false _ _ _ _ hA
      have hfront :
          (((c :: A2).reverse.dropWhile isPySpace).reverse).dropWhile
            isPySpace =
          ((c :: A2).reverse.dropWhile isPySpace).reverse := by
        have hrw : (c :: A2).reverse = A2.reverse ++ [c] := by simp
        rw [hrw, dropWhile_append_singleton _ _ hc]
        simp [List.dropWhile_cons, hc]
      rw [hfront, List.reverse_reverse, dropWhile_after_dropWhile]

/-- Python `strip` is idempotent: stripped text never begins or ends with
whitespace. -/
theorem pyStrip_idem (s : String) : pyStrip (pyStrip s) = pyStrip s :=
  congrArg String.mk (stripList_idem s.data)

/-- What `tagsGet` yields on an `extract_tags` result: the stripped first
match of the looked-up tag. -/
theorem tagsGet_extract (output : String) (tagNames : List String)
    (tag : String) (v : String)
    (h : tagsGet (extract_tags output tagNames) tag = some v) :
    (rawFirstMatch output tag).map pyStrip = some v := by
  induction tagNames with
  | nil => simp [extract_tags, tagsGet, List.lookup] at h
  | cons t ts ih =>
      by_cases e : tag = t
      · subst e
        simpa [extract_tags, tagsGet, List.lookup] using h
      · have e2 : (tag == t) = false := by simpa using e
        apply ih
        simpa [extract_tags, tagsGet, List.lookup, e2] using h

/-!
## Claim C9 — tag extraction
-/

/-- C9: `extract_tags` is defined on exactly the requested tag names;
`extract("<a>1</a><b>2</b>", ["a","b","c"])` yields `a ↦ "1"`, `b ↦ "2"`,
`c ↦ none`; only the first occurrence of a tag counts; tag names match
case-insensitively; captured content may span newlines. -/
theorem c9_extract_tags :
    (extract_tags "<a>1</a><b>2</b>" ["a", "b", "c"] =
      [("a", some "1"), ("b", some "2"), ("c", none)]) ∧
    (∀ output tagNames,
      (extract_tags output tagNames).map Prod.fst = tagNames) ∧
    (extract_tags "<a>1</a><a>2</a>" ["a"] = [("a", some "1")]) ∧
    (extract_tags "<A>x</A><B>y</B>" ["a", "b"] =
      [("a", some "x"), ("b", some "y")]) ∧
    (extract_tags "<a>line1\nline2</a>" ["a"] =
      [("a", some "line1\nline2")]) := by
  refine ⟨by decide, ?_, by decide, by decide, by decide⟩
  intro output tagNames
  simp [extract_tags, List.map_map, Function.comp_def]

/-!
## Claim C10 — stripping of extracted tag values
-/

/-- C10: every value `extract_tags` returns is the whitespace-stripped
first-match capture, hence never begins or ends with whitespace
(stripping it again is the identity); e.g. tag `a` in `"<a>\n 1 \n</a>"`
extracts to `"1"`, which makes `tag_equals` tolerant of surrounding
whitespace in tag content. -/
theorem c10_stripped_values :
    (∀ output tagNames tag v,
        tagsGet (extract_tags output tagNames) tag = some v →
        (rawFirstMatch output tag).map pyStrip = some v ∧ pyStrip v = v) ∧
    (extract_tags "<a>\n 1 \n</a>" ["a"] = [("a", some "1")]) ∧
    (tag_equals (extract_tags "<gate-passed>\n True \n</gate-passed>"
      ["gate-passed"]) "gate-passed" "true" = true) := by
  refine ⟨?_, by decide, by decide⟩
  intro output tagNames tag v h
  have h1 := tagsGet_extract output tagNames tag v h
  refine ⟨h1, ?_⟩
  cases hr : rawFirstMatch output tag with
  | none => rw [hr] at h1; simp at h1
  | some r =>
      rw [hr] at h1
      simp at h1
      rw [← h1]
      exact pyStrip_idem r

/-- Witness for C10: the stripping clause at a concrete extraction. -/
theorem c10_witness :
    (rawFirstMatch "<a>\n 1 \n</a>" "a").map pyStrip = some "1" ∧
    pyStrip "1" = "1" :=
  c10_stripped_values.1 "<a>\n 1 \n</a>" ["a"] "a" "1" (by decide)

/-!
## Lemmas about Thread execution
-/

/-- Stepping `execLoop` over a non-gate element is applying the element. -/
theorem execLoop_cons_nongate (w : World) (e : AriadneElem)
    (hge : isHumanGate e = false) (rest : List AriadneElem) (i : Nat)
    (ctx : Ctx) :
    execLoop w (e :: rest) i ctx =
      match elemApply w e ctx with
      | Except.ok c => execLoop w rest (i + 1) c
      | Except.error m =>
          { status := .error, context := ctx, error := some m } := by
  cases e with
  | humanInput h => simp [isHumanGate] at hge
  | injectCfg c => rfl
  | weaveCfg c => rfl
  | brainCfg c => rfl
  | dovetail d =>
      cases hd : d.prepareNextInputs ctx <;>
        simp [execLoop, elemApply, hd]

/-- Running `execLoop` over a gate-free prefix that applies cleanly just
advances the index and the context. -/
theorem execLoop_append (w : World) (pre : List AriadneElem) :
    ∀ (rest : List AriadneElem) (i : Nat) (ctx ctx2 : Ctx),
    (∀ e ∈ pre, isHumanGate e = false) →
    applyAll w pre ctx = Except.ok ctx2 →
    execLoop w (pre ++ rest) i ctx = execLoop w rest (i + pre.length) ctx2 := by
  induction pre with
  | nil =>
      intro rest i ctx ctx2 _ ha
      simp [applyAll] at ha
      subst ha
      simp
  | cons e pre ih =>
      intro rest i ctx ctx2 hg ha
      have hge : isHumanGate e = false := hg e (by simp)
      cases he : elemApply w e ctx with
      | ok c =>
          have ha2 : applyAll w pre c = Except.ok ctx2 := by
            simpa [applyAll, he] using ha
          rw [List.cons_append, execLoop_cons_nongate w e hge, he]
          show execLoop w (pre ++ rest) (i + 1) c =
            execLoop w rest (i + (e :: pre).length) ctx2
          rw [ih rest (i + 1) c ctx2 (fun x hx => hg x (by simp [hx])) ha2]
          congr 1
          simp
          omega
      | error m => simp [applyAll, he] at ha

/-- Dropping past a prefix and one more element. -/
theorem drop_len_succ (x : AriadneElem) (pre post : List AriadneElem) :
    (pre ++ x :: post).drop (pre.length + 1) = post := by
  induction pre with
  | nil => simp
  | cons a t ih => simp [ih]

/-!
## Sample world and elements used by the closed witnesses
-/

/-- A concrete external world.  The file system and dynamic imports fail,
the environment is empty, and the model call dispatches on the
configuration name: `"blocked"` self-reports blocked, `"fail"` returns an
error status, `"raise"` raises, `"approve"`/`"reject"` emit an
`ovp_approved` flag, anything else succeeds with text `"done"`. -/
def w0 : World where
  readFile := fun _ => Except.error "file not found"
  callFunction := fun _ _ _ => Except.error "unavailable"
  osEnv := fun _ => none
  brainThink := fun _ _ => Except.error "unavailable"
  agentStep := fun cfg _ =>
    if cfg.name = "blocked" then Except.ok { status := StepStatus.blocked }
    else if cfg.name = "fail" then
      Except.ok { status := StepStatus.error, error := some "step failed" }
    else if cfg.name = "raise" then Except.error "transport down"
    else if cfg.name = "approve" then
      Except.ok { status := StepStatus.success,
                  output := [("ovp_approved", Value.vBool true)] }
    else if cfg.name = "reject" then
      Except.ok { status := StepStatus.success,
                  output := [("ovp_approved", Value.vBool false)] }
    else Except.ok { status := StepStatus.success,
                     output := [("text", Value.vStr "done")] }

/-- A literal injection (`inject_literal('v1', 'spec')`). -/
def litElem : AriadneElem :=
  AriadneElem.injectCfg
    { source := "literal", injectAs := "spec", value := Value.vStr "v1" }

/-- A second literal injection, placed after the gate in resumption tests. -/
def litElem2 : AriadneElem :=
  AriadneElem.injectCfg
    { source := "literal", injectAs := "after", value := Value.vStr "z" }

/-- A file injection whose read fails in `w0`. -/
def fileElem : AriadneElem :=
  AriadneElem.injectCfg
    { source := "file", injectAs := "doc", path := some "/missing.md" }

/-- The human gate used by the witnesses. -/
def gateElem : HumanInput :=
  { prompt := "Approve?", inputKey := "answer", choices := some ["yes", "no"] }

/-!
## Claim C1 — a Thread suspends at its first human gate
-/

/-- C1: if the elements before the first human gate (at index
`k = pre.length`) apply without raising, `execute` from index 0 returns
`AwaitingInput` with `resume_at = k + 1`, context exactly the effects of
elements `0..k-1` (the gate mutates nothing), carrying the gate's prompt,
input key and choices; the elements after the gate (`post`, universally
quantified) are never executed. -/
theorem c1_human_gate_suspends (w : World) (nm : String)
    (pre post : List AriadneElem) (h : HumanInput) (ctx ctx2 : Ctx)
    (hg : ∀ e ∈ pre, isHumanGate e = false)
    (ha : applyAll w pre ctx = Except.ok ctx2) :
    AriadneChain.execute w ⟨nm, pre ++ AriadneElem.humanInput h :: post⟩
        (some ctx) 0 =
      { status := .awaitingInput, context := ctx2,
        pendingPrompt := some h.prompt, pendingInputKey := some h.inputKey,
        pendingChoices := h.choices, resumeAt := some (pre.length + 1) } := by
  unfold AriadneChain.execute
  simp only [List.drop_zero]
  rw [execLoop_append w pre _ 0 ctx ctx2 hg ha]
  simp [execLoop]

/-- Witness for C1: a literal element then a gate with choices. -/
theorem c1_witness :
    AriadneChain.execute w0
        ⟨"t", [litElem, AriadneElem.humanInput gateElem]⟩ (some []) 0 =
      { status := .awaitingInput, context := [("spec", Value.vStr "v1")],
        pendingPrompt := some "Approve?", pendingInputKey := some "answer",
        pendingChoices := some ["yes", "no"], resumeAt := some 2 } :=
  c1_human_gate_suspends w0 "t" [litElem] [] gateElem []
    [("spec", Value.vStr "v1")]
    (by intro e he; simp at he; subst he; rfl) (by rfl)

/-!
## Claim C2 — resuming equals running the gate-free sequence
-/

/-- C2: after suspending at the only gate (index `k = pre.length`) with
accumulated context `ctx2`, re-executing from the returned resume index
`k + 1` on `ctx2` extended with the answer at the gate's input key gives
exactly the result (in particular the final context) of executing the
gate-free sequence in which the answer is injected at the result key in
the gate's place, from the original context. -/
theorem c2_resume_equiv (w : World) (nm nm2 : String)
    (pre post : List AriadneElem) (h : HumanInput) (answer : Value)
    (ctx ctx2 : Ctx)
    (hg : ∀ e ∈ pre, isHumanGate e = false)
    (ha : applyAll w pre ctx = Except.ok ctx2) :
    AriadneChain.execute w ⟨nm, pre ++ AriadneElem.humanInput h :: post⟩
        (some (ctxSet ctx2 h.inputKey answer)) (pre.length + 1) =
    AriadneChain.execute w
        ⟨nm2, pre ++ AriadneElem.injectCfg
          { source := "literal", injectAs := h.inputKey,
            value := answer } :: post⟩
        (some ctx) 0 := by
  unfold AriadneChain.execute
  simp only [List.drop_zero]
  rw [drop_len_succ]
  rw [execLoop_append w pre _ 0 ctx ctx2 hg ha]
  rw [execLoop_cons_nongate w _ (by rfl)]
  simp [elemApply, InjectConfig.execute]

/-- Witness for C2: resuming with the answer matches the uninterrupted
gate-free run on a concrete three-element Thread. -/
theorem c2_witness :
    AriadneChain.execute w0
        ⟨"t", [litElem, AriadneElem.humanInput gateElem, litElem2]⟩
        (some (ctxSet [("spec", Value.vStr "v1")] "answer"
          (Value.vStr "yes"))) 2 =
    AriadneChain.execute w0
        ⟨"t2", [litElem, AriadneElem.injectCfg
          { source := "literal", injectAs := "answer",
            value := Value.vStr "yes" }, litElem2]⟩
        (some []) 0 :=
  c2_resume_equiv w0 "t" "t2" [litElem] [litElem2] gateElem
    (Value.vStr "yes") [] [("spec", Value.vStr "v1")]
    (by intro e he; simp at he; subst he; rfl) (by rfl)

/-!
## Claim C8 — exceptions become Error outcomes
-/

/-- C8: a raising element turns the Thread outcome into `Error` with the
exception message and the context accumulated before the failing element
(whose effects never commit, elements being atomic); and a raising model
call is caught by the Generation Step, which returns a tagged error
result instead of propagating.  Both `execute` functions are total, so no
exception escapes them in the embedding. -/
theorem c8_error_outcomes :
    (∀ (w : World) (nm : String) (pre post : List AriadneElem)
        (e : AriadneElem) (ctx ctx2 : Ctx) (msg : String),
        (∀ x ∈ pre, isHumanGate x = false) →
        applyAll w pre ctx = Except.ok ctx2 →
        isHumanGate e = false →
        elemApply w e ctx2 = Except.error msg →
        AriadneChain.execute w ⟨nm, pre ++ e :: post⟩ (some ctx) 0 =
          { status := .error, context := ctx2, error := some msg }) ∧
    (∀ (w : World) (cfg : HermesConfig) (ctx : Ctx) (msg : String),
        w.agentStep cfg ctx = Except.error msg →
        poimandresExecute w cfg ctx = { success := false, error := some msg }) := by
  constructor
  · intro w nm pre post e ctx ctx2 msg hg ha hge he
    unfold AriadneChain.execute
    simp only [List.drop_zero]
    rw [execLoop_append w pre _ 0 ctx ctx2 hg ha]
    rw [execLoop_cons_nongate w e hge]
    simp [he]
  · intro w cfg ctx msg h
    simp [poimandresExecute, h]

/-- Witness for C8: a failing file read after a literal element, and a
raising model transport. -/
theorem c8_witness :
    (AriadneChain.execute w0 ⟨"t", [litElem, fileElem]⟩ (some []) 0 =
      { status := .error, context := [("spec", Value.vStr "v1")],
        error := some "file not found" }) ∧
    (poimandresExecute w0 ⟨"raise", ""⟩ [] =
      { success := false, error := some "transport down" }) :=
  ⟨c8_error_outcomes.1 w0 "t" [litElem] [] fileElem []
      [("spec", Value.vStr "v1")] "file not found"
      (by intro e he; simp at he; subst he; rfl) (by rfl) (by rfl) (by rfl),
   c8_error_outcomes.2 w0 ⟨"raise", ""⟩ [] "transport down" (by rfl)⟩

/-!
## Claim C3 — Unit pass-through of non-Success Thread outcomes

The claim as frozen is false on the code: `SDNAResult` carries neither
the gate's choices nor any resume index (its `resume_path` is only ever
assigned by `SDNAFlow`), so the Unit's `AWAITING_INPUT` result keeps only
status, context, prompt and input key.  The pass-through of status,
context, error, prompt and input key — and the fact that the Generation
Step runs only on a `SUCCESS` Thread outcome — does hold.
-/

/-- Amended C3: for every Unit, when the Thread outcome is
`AWAITING_INPUT` or `ERROR`, the Unit returns that status with the
accumulated context (plus prompt/input key, resp. error message), an
expression in which Poimandres does not occur — so the Generation Step is
invoked only on Thread `SUCCESS`.  The choices and the resume index are
dropped: the result's `resume_path` is `none` and `SDNAResult` has no
choices field. -/
theorem c3_amended_passthrough (w : World) (u : SDNAC) (context : Option Ctx) :
    ((AriadneChain.execute w u.ariadne context 0).status =
        AriadneStatus.awaitingInput →
      SDNAC.execute w u context =
        { status := .awaitingInput,
          context := (AriadneChain.execute w u.ariadne context 0).context,
          pendingPrompt :=
            (AriadneChain.execute w u.ariadne context 0).pendingPrompt,
          pendingInputKey :=
            (AriadneChain.execute w u.ariadne context 0).pendingInputKey }) ∧
    ((AriadneChain.execute w u.ariadne context 0).status =
        AriadneStatus.error →
      SDNAC.execute w u context =
        { status := .error,
          context := (AriadneChain.execute w u.ariadne context 0).context,
          error := (AriadneChain.execute w u.ariadne context 0).error }) := by
  constructor <;> intro h <;> simp [SDNAC.execute, h]

/-- The gate-only chain and Unit exhibiting the dropped fields. -/
def gateChain : AriadneChain := ⟨"g", [AriadneElem.humanInput gateElem]⟩

/-- A Unit whose Thread suspends immediately at a gate with choices. -/
def gateUnit : SDNAC := ⟨"u", gateChain, ⟨"gen", ""⟩⟩

/-- Counterexample to C3 as frozen: the Thread outcome carries
`resume_at = 1` and the choices, but the Unit's `AWAITING_INPUT` result
has `resume_path = none` (and its type has no choices field), so the
Unit's outcome does not carry a valid resume index into the Thread. -/
theorem c3_counterexample :
    (AriadneChain.execute w0 gateChain (some []) 0).resumeAt = some 1 ∧
    (AriadneChain.execute w0 gateChain (some []) 0).pendingChoices =
      some ["yes", "no"] ∧
    (SDNAC.execute w0 gateUnit (some [])).status = SDNAStatus.awaitingInput ∧
    (SDNAC.execute w0 gateUnit (some [])).resumePath = none :=
  ⟨rfl, rfl, rfl, rfl⟩

/-- Witness for the amended C3 at the concrete gate Unit. -/
theorem c3_witness :
    SDNAC.execute w0 gateUnit (some []) =
      { status := .awaitingInput, context := [],
        pendingPrompt := some "Approve?", pendingInputKey := some "answer" } :=
  (c3_amended_passthrough w0 gateUnit (some [])).1 (by rfl)

/-!
## Claim C4 — a Flow halts at the first non-Success Unit
-/

/-- Each Unit of the list returns `SUCCESS`, threading the context from
`c` to `cFin`. -/
def unitsSucceed (w : World) : List SDNAC → Ctx → Ctx → Prop
  | [], c, cFin => cFin = c
  | u :: rest, c, cFin =>
      (SDNAC.execute w u (some c)).status = SDNAStatus.success ∧
      unitsSucceed w rest (SDNAC.execute w u (some c)).context cFin

/-- Running `flowLoop` over an all-success prefix advances index and
context. -/
theorem flowLoop_units (w : World) (units : List SDNAC) :
    ∀ (more : List SDNAC) (i : Nat) (ctx ctxFin : Ctx),
    unitsSucceed w units ctx ctxFin →
    flowLoop w (units ++ more) i ctx =
      flowLoop w more (i + units.length) ctxFin := by
  induction units with
  | nil =>
      intro more i ctx ctxFin h
      have h2 : ctxFin = ctx := h
      subst h2
      simp
  | cons u rest ih =>
      intro more i ctx ctxFin h
      obtain ⟨h1, h2⟩ := h
      rw [List.cons_append]
      show (let r := SDNAC.execute w u (some ctx);
        if r.status = SDNAStatus.success then
          flowLoop w (rest ++ more) (i + 1) r.context
        else { r with resumePath := some [i] }) = _
      simp only [h1, if_pos rfl]
      rw [ih more (i + 1) _ ctxFin h2]
      have harith : i + 1 + rest.length = i + (u :: rest).length := by
        rw [List.length_cons]
        omega
      rw [harith]
      simp

/-- C4: Units run in declared order threading the context; the Flow stops
at the first Unit whose outcome is not `SUCCESS` and returns that outcome
with `resume_path = [index of that Unit]`, for any suffix of later Units
(which are therefore never invoked); if every Unit succeeds the Flow
returns `SUCCESS` with the final accumulated context. -/
theorem c4_flow_halts :
    (∀ (w : World) (nm : String) (pre : List SDNAC) (u : SDNAC)
        (rest : List SDNAC) (ctx ctxMid : Ctx),
        unitsSucceed w pre ctx ctxMid →
        (SDNAC.execute w u (some ctxMid)).status ≠ SDNAStatus.success →
        SDNAFlow.execute w ⟨nm, pre ++ u :: rest⟩ (some ctx) =
          { SDNAC.execute w u (some ctxMid) with
            resumePath := some [pre.length] }) ∧
    (∀ (w : World) (nm : String) (units : List SDNAC) (ctx ctxFin : Ctx),
        unitsSucceed w units ctx ctxFin →
        SDNAFlow.execute w ⟨nm, units⟩ (some ctx) =
          { status := .success, context := ctxFin }) := by
  constructor
  · intro w nm pre u rest ctx ctxMid hpre hu
    unfold SDNAFlow.execute
    rw [flowLoop_units w pre _ 0 ctx ctxMid hpre]
    simp [flowLoop, hu]
  · intro w nm units ctx ctxFin h
    unfold SDNAFlow.execute
    have h2 := flowLoop_units w units [] 0 ctx ctxFin h
    simpa [flowLoop] using h2

/-- A Unit that succeeds under `w0`, producing `text = "done"`. -/
def okUnit : SDNAC := ⟨"u1", ⟨"c1", []⟩, ⟨"gen", ""⟩⟩

/-- A Unit whose Generation Step self-reports blocked under `w0`. -/
def blockedUnit : SDNAC := ⟨"u2", ⟨"c2", []⟩, ⟨"blocked", ""⟩⟩

/-- Witness for C4: a three-Unit Flow halting at index 1, and an
all-success Flow. -/
theorem c4_witness :
    (SDNAFlow.execute w0 ⟨"f", [okUnit, blockedUnit, okUnit]⟩ (some []) =
      { status := .blocked, context := [("text", Value.vStr "done")],
        resumePath := some [1] }) ∧
    (SDNAFlow.execute w0 ⟨"f2", [okUnit]⟩ (some []) =
      { status := .success, context := [("text", Value.vStr "done")] }) :=
  ⟨c4_flow_halts.1 w0 "f" [okUnit] blockedUnit [okUnit] []
      [("text", Value.vStr "done")] ⟨rfl, rfl⟩ (by decide),
   c4_flow_halts.2 w0 "f2" [okUnit] [] [("text", Value.vStr "done")]
      ⟨rfl, rfl⟩⟩

/-!
## Claim C5 — 2-stage refinement loop iteration counts
-/

/-- Loop status under a never-approving observer, by induction on the
remaining iteration budget. -/
theorem duoLoop_na_status (w : World) (a : DUOAgent)
    (ht : ∀ c, (SDNAC.execute w a.target (some c)).status = SDNAStatus.success)
    (ho : ∀ c, (SDNAC.execute w a.ovp (some c)).status = SDNAStatus.success)
    (hn : ∀ c, (ctxGetD (SDNAC.execute w a.ovp (some c)).context a.approvalKey
        (Value.vBool false)).truthy = false) :
    ∀ (r iter0 : Nat) (ctx : Ctx) (tc oc : Nat),
    (duoLoop w a r iter0 ctx tc oc).result.status = DUOStatus.maxIterations := by
  intro r
  induction r with
  | zero => intro iter0 ctx tc oc; rfl
  | succ n ih =>
      intro iter0 ctx tc oc
      simp only [duoLoop]
      simp [ht, ho, hn]
      exact ih _ _ _ _

/-- Reported iteration count under a never-approving observer. -/
theorem duoLoop_na_iters (w : World) (a : DUOAgent)
    (ht : ∀ c, (SDNAC.execute w a.target (some c)).status = SDNAStatus.success)
    (ho : ∀ c, (SDNAC.execute w a.ovp (some c)).status = SDNAStatus.success)
    (hn : ∀ c, (ctxGetD (SDNAC.execute w a.ovp (some c)).context a.approvalKey
        (Value.vBool false)).truthy = false) :
    ∀ (r iter0 : Nat) (ctx : Ctx) (tc oc : Nat),
    (duoLoop w a r iter0 ctx tc oc).result.iterations = a.maxIterations := by
  intro r
  induction r with
  | zero => intro iter0 ctx tc oc; rfl
  | succ n ih =>
      intro iter0 ctx tc oc
      simp only [duoLoop]
      simp [ht, ho, hn]
      exact ih _ _ _ _

/-- Target call count under a never-approving observer. -/
theorem duoLoop_na_target (w : World) (a : DUOAgent)
    (ht : ∀ c, (SDNAC.execute w a.target (some c)).status = SDNAStatus.success)
    (ho : ∀ c, (SDNAC.execute w a.ovp (some c)).status = SDNAStatus.success)
    (hn : ∀ c, (ctxGetD (SDNAC.execute w a.ovp (some c)).context a.approvalKey
        (Value.vBool false)).truthy = false) :
    ∀ (r iter0 : Nat) (ctx : Ctx) (tc oc : Nat),
    (duoLoop w a r iter0 ctx tc oc).targetCalls = tc + r := by
  intro r
  induction r with
  | zero => intro iter0 ctx tc oc; rfl
  | succ n ih =>
      intro iter0 ctx tc oc
      simp only [duoLoop]
      simp [ht, ho, hn]
      rw [ih]
      omega

/-- Observer call count under a never-approving observer. -/
theorem duoLoop_na_ovp (w : World) (a : DUOAgent)
    (ht : ∀ c, (SDNAC.execute w a.target (some c)).status = SDNAStatus.success)
    (ho : ∀ c, (SDNAC.execute w a.ovp (some c)).status = SDNAStatus.success)
    (hn : ∀ c, (ctxGetD (SDNAC.execute w a.ovp (some c)).context a.approvalKey
        (Value.vBool false)).truthy = false) :
    ∀ (r iter0 : Nat) (ctx : Ctx) (tc oc : Nat),
    (duoLoop w a r iter0 ctx tc oc).ovpCalls = oc + r := by
  intro r
  induction r with
  | zero => intro iter0 ctx tc oc; rfl
  | succ n ih =>
      intro iter0 ctx tc oc
      simp only [duoLoop]
      simp [ht, ho, hn]
      rw [ih]
      omega

/-- C5: with target and observer Units always succeeding and `m ≥ 1`
iterations allowed — if the observer leaves a truthy value at the
approval key on every run, the loop ends in `SUCCESS` after exactly one
iteration (target and observer each called once); if the approval key is
never truthy, it ends in `MAX_ITERATIONS` reporting exactly `m`
iterations, the target having been called exactly `m` times. -/
theorem c5_duo_iterations (w : World) (nm : String) (target ovp : SDNAC)
    (m : Nat) (akey fkey : String) (ctx : Ctx) (hm : 1 ≤ m)
    (ht : ∀ c, (SDNAC.execute w target (some c)).status = SDNAStatus.success)
    (ho : ∀ c, (SDNAC.execute w ovp (some c)).status = SDNAStatus.success) :
    ((∀ c, (ctxGetD (SDNAC.execute w ovp (some c)).context akey
        (Value.vBool false)).truthy = true) →
      (DUOAgent.executeTrace w ⟨nm, target, ovp, m, akey, fkey⟩
          (some ctx)).result.status = DUOStatus.success ∧
      (DUOAgent.executeTrace w ⟨nm, target, ovp, m, akey, fkey⟩
          (some ctx)).result.iterations = 1 ∧
      (DUOAgent.executeTrace w ⟨nm, target, ovp, m, akey, fkey⟩
          (some ctx)).targetCalls = 1 ∧
      (DUOAgent.executeTrace w ⟨nm, target, ovp, m, akey, fkey⟩
          (some ctx)).ovpCalls = 1) ∧
    ((∀ c, (ctxGetD (SDNAC.execute w ovp (some c)).context akey
        (Value.vBool false)).truthy = false) →
      (DUOAgent.executeTrace w ⟨nm, target, ovp, m, akey, fkey⟩
          (some ctx)).result.status = DUOStatus.maxIterations ∧
      (DUOAgent.executeTrace w ⟨nm, target, ovp, m, akey, fkey⟩
          (some ctx)).result.iterations = m ∧
      (DUOAgent.executeTrace w ⟨nm, target, ovp, m, akey, fkey⟩
          (some ctx)).targetCalls = m ∧
      (DUOAgent.executeTrace w ⟨nm, target, ovp, m, akey, fkey⟩
          (some ctx)).ovpCalls = m) := by
  constructor
  · intro hA
    obtain ⟨r, hr⟩ : ∃ r, m = r + 1 := ⟨m - 1, by omega⟩
    subst hr
    unfold DUOAgent.executeTrace
    simp only [duoLoop]
    simp [ht, ho, hA]
  · intro hN
    have hs := duoLoop_na_status w ⟨nm, target, ovp, m, akey, fkey⟩ ht ho hN
    have hi := duoLoop_na_iters w ⟨nm, target, ovp, m, akey, fkey⟩ ht ho hN
    have htc := duoLoop_na_target w ⟨nm, target, ovp, m, akey, fkey⟩ ht ho hN
    have hoc := duoLoop_na_ovp w ⟨nm, target, ovp, m, akey, fkey⟩ ht ho hN
    unfold DUOAgent.executeTrace
    refine ⟨hs _ _ _ _ _, hi _ _ _ _ _, ?_, ?_⟩
    · rw [htc]
      show 0 + m = m
      omega
    · rw [hoc]
      show 0 + m = m
      omega

/-- A Unit whose Generation Step asserts `ovp_approved = True` under `w0`. -/
def approveUnit : SDNAC := ⟨"ovp", ⟨"c", []⟩, ⟨"approve", ""⟩⟩

/-- A Unit whose Generation Step asserts `ovp_approved = False` under `w0`. -/
def rejectUnit : SDNAC := ⟨"ovp2", ⟨"c", []⟩, ⟨"reject", ""⟩⟩

/-- The approving observer leaves a truthy approval flag in any context. -/
theorem approveUnit_sets (c : Ctx) :
    (ctxGetD (SDNAC.execute w0 approveUnit (some c)).context "ovp_approved"
      (Value.vBool false)).truthy = true := by
  show (ctxGetD (ctxSet c "ovp_approved" (Value.vBool true)) "ovp_approved"
      (Value.vBool false)).truthy = true
  unfold ctxGetD
  rw [ctxGet_set_self]
  rfl

/-- The rejecting observer leaves a falsy approval flag in any context. -/
theorem rejectUnit_clears (c : Ctx) :
    (ctxGetD (SDNAC.execute w0 rejectUnit (some c)).context "ovp_approved"
      (Value.vBool false)).truthy = false := by
  show (ctxGetD (ctxSet c "ovp_approved" (Value.vBool false)) "ovp_approved"
      (Value.vBool false)).truthy = false
  unfold ctxGetD
  rw [ctxGet_set_self]
  rfl

/-- Witness for C5: both iteration-count behaviours at concrete loops
with bound 2. -/
theorem c5_witness :
    ((DUOAgent.executeTrace w0
        ⟨"d", okUnit, approveUnit, 2, "ovp_approved", "ovp_feedback"⟩
        (some [])).result.status = DUOStatus.success ∧
      (DUOAgent.executeTrace w0
        ⟨"d", okUnit, approveUnit, 2, "ovp_approved", "ovp_feedback"⟩
        (some [])).result.iterations = 1 ∧
      (DUOAgent.executeTrace w0
        ⟨"d", okUnit, approveUnit, 2, "ovp_approved", "ovp_feedback"⟩
        (some [])).targetCalls = 1 ∧
      (DUOAgent.executeTrace w0
        ⟨"d", okUnit, approveUnit, 2, "ovp_approved", "ovp_feedback"⟩
        (some [])).ovpCalls = 1) ∧
    ((DUOAgent.executeTrace w0
        ⟨"d2", okUnit, rejectUnit, 2, "ovp_approved", "ovp_feedback"⟩
        (some [])).result.status = DUOStatus.maxIterations ∧
      (DUOAgent.executeTrace w0
        ⟨"d2", okUnit, rejectUnit, 2, "ovp_approved", "ovp_feedback"⟩
        (some [])).result.iterations = 2 ∧
      (DUOAgent.executeTrace w0
        ⟨"d2", okUnit, rejectUnit, 2, "ovp_approved", "ovp_feedback"⟩
        (some [])).targetCalls = 2 ∧
      (DUOAgent.executeTrace w0
        ⟨"d2", okUnit, rejectUnit, 2, "ovp_approved", "ovp_feedback"⟩
        (some [])).ovpCalls = 2) :=
  ⟨(c5_duo_iterations w0 "d" okUnit approveUnit 2 "ovp_approved"
      "ovp_feedback" [] (by omega) (fun c => rfl) (fun c => rfl)).1
      (fun c => approveUnit_sets c),
   (c5_duo_iterations w0 "d2" okUnit rejectUnit 2 "ovp_approved"
      "ovp_feedback" [] (by omega) (fun c => rfl) (fun c => rfl)).2
      (fun c => rejectUnit_clears c)⟩

/-!
## Claim C6 — short-circuiting of the refinement loops

The claim as frozen is false on the code.  In `DUOAgent.execute` the
observer's result is checked for `ERROR` and `BLOCKED` but not for
`AWAITING_INPUT`, which falls through to the approval check; in
`DuoAgentV2.execute` every stage is checked for `ERROR` only, so a
`BLOCKED` (or `AWAITING_INPUT`) stage outcome never terminates the loop.
-/

/-- Amended C6: in the 2-stage loop, a target outcome of `AwaitingInput`,
`Blocked` or `Error` terminates the iteration immediately with the
corresponding loop status, before the observer is consulted (the observer
call count is unchanged); an observer outcome of `Error` or `Blocked`
terminates without starting another iteration.  In the 4-stage loop a
stage `Error` (shown here for the challenge stage) terminates immediately
with `Error`; the other statuses are not checked there. -/
theorem c6_amended_short_circuit :
    (∀ (w : World) (a : DUOAgent) (r iter0 : Nat) (ctx : Ctx) (tc oc : Nat),
      let ctx0 := ctxSet ctx "duo_iteration" (Value.vInt (iter0 + 1))
      let tres := SDNAC.execute w a.target (some ctx0)
      let ctx1 := ctxSet tres.context "target_output"
        (ctxGetD tres.context "text" (Value.vStr ""))
      (tres.status = SDNAStatus.awaitingInput →
        duoLoop w a (r + 1) iter0 ctx tc oc =
          ⟨{ status := .awaitingInput, context := ctx1,
             iterations := iter0 + 1 }, tc + 1, oc⟩) ∧
      (tres.status = SDNAStatus.blocked →
        duoLoop w a (r + 1) iter0 ctx tc oc =
          ⟨{ status := .blocked, context := ctx1,
             iterations := iter0 + 1 }, tc + 1, oc⟩) ∧
      (tres.status = SDNAStatus.error →
        duoLoop w a (r + 1) iter0 ctx tc oc =
          ⟨{ status := .error, context := ctx1, iterations := iter0 + 1,
             error := tres.error }, tc + 1, oc⟩) ∧
      (tres.status = SDNAStatus.success →
        let ores := SDNAC.execute w a.ovp (some ctx1)
        (ores.status = SDNAStatus.error →
          duoLoop w a (r + 1) iter0 ctx tc oc =
            ⟨{ status := .error, context := ores.context,
               iterations := iter0 + 1, error := ores.error },
              tc + 1, oc + 1⟩) ∧
        (ores.status = SDNAStatus.blocked →
          duoLoop w a (r + 1) iter0 ctx tc oc =
            ⟨{ status := .blocked, context := ores.context,
               iterations := iter0 + 1 }, tc + 1, oc + 1⟩))) ∧
    (∀ (w : World) (a : DuoAgentV2) (r iter0 : Nat) (ctx : Ctx)
        (cc tc gc oc : Nat),
      (SDNAC.execute w a.ariadne
          (some (ctxSet ctx "duo_iteration"
            (Value.vInt (iter0 + 1))))).status = SDNAStatus.error →
        duoV2Loop w a (r + 1) iter0 ctx cc tc gc oc =
          ⟨{ status := .error,
             error := (SDNAC.execute w a.ariadne
               (some (ctxSet ctx "duo_iteration"
                 (Value.vInt (iter0 + 1))))).error,
             iterations := iter0 + 1 }, cc + 1, tc, gc, oc⟩) := by
  constructor
  · intro w a r iter0 ctx tc oc
    dsimp only
    refine ⟨?_, ?_, ?_, ?_⟩
    · intro h
      simp only [duoLoop]
      simp [h]
    · intro h
      simp only [duoLoop]
      simp [h]
    · intro h
      simp only [duoLoop]
      simp [h]
    · intro h
      refine ⟨?_, ?_⟩ <;> intro h2 <;> simp only [duoLoop] <;> simp [h, h2]
  · intro w a r iter0 ctx cc tc gc oc h
    simp only [duoV2Loop]
    simp [h]

/-- A target Unit blocking inside a 2-stage loop with bound 2. -/
def blockedTargetDuo : DUOAgent :=
  ⟨"d", blockedUnit, approveUnit, 2, "ovp_approved", "ovp_feedback"⟩

/-- Witness for the amended C6: the blocked target short-circuits the
concrete loop on its first iteration with the observer never called. -/
theorem c6_witness :
    duoLoop w0 blockedTargetDuo 2 0 [] 0 0 =
      ⟨{ status := .blocked,
         context := [("duo_iteration", Value.vInt 1),
                     ("target_output", Value.vStr "")],
         iterations := 1 }, 1, 0⟩ :=
  ((c6_amended_short_circuit.1 w0 blockedTargetDuo 1 0 [] 0 0).2.1) (by rfl)

/-- An observer Unit whose Thread sets a truthy approval flag and then
suspends at a human gate, so its Unit outcome is `AWAITING_INPUT`. -/
def gateOvpUnit : SDNAC :=
  ⟨"ov",
    ⟨"c", [AriadneElem.injectCfg
        { source := "literal", injectAs := "ovp_approved",
          value := Value.vBool true },
      AriadneElem.humanInput ⟨"more?", "ans", none⟩]⟩,
    ⟨"gen", ""⟩⟩

/-- The loop in which the observer suspends. -/
def cexDuo : DUOAgent :=
  ⟨"cex", okUnit, gateOvpUnit, 3, "ovp_approved", "ovp_feedback"⟩

/-- A generator Unit whose Generation Step self-reports blocked under
`wV2Gate` (defined below with the C7 scenario world). -/
def isIterOne (c : Ctx) : Bool :=
  match ctxGet c "duo_iteration" with
  | some (Value.vInt n) => n == 1
  | _ => false

/-- The C7 scenario world: the four stage configurations emit fixed
tagged texts, except the gate, which fails on iteration 1 and passes
afterwards; `"blockedstep"` self-reports blocked. -/
def wV2 : World where
  readFile := fun _ => Except.error "file not found"
  callFunction := fun _ _ _ => Except.error "unavailable"
  osEnv := fun _ => none
  brainThink := fun _ _ => Except.error "unavailable"
  agentStep := fun cfg ctx =>
    if cfg.name = "challenge" then
      Except.ok { status := StepStatus.success,
                  output := [("text", Value.vStr "<challenge>do it</challenge>")] }
    else if cfg.name = "gen" then
      Except.ok { status := StepStatus.success,
                  output := [("text", Value.vStr "<deliverable>thing</deliverable>")] }
    else if cfg.name = "gate" then
      (if isIterOne ctx then
        Except.ok { status := StepStatus.success,
                    output := [("text", Value.vStr
                      "<gate-passed>false</gate-passed><gate-feedback>fix</gate-feedback>")] }
      else
        Except.ok { status := StepStatus.success,
                    output := [("text", Value.vStr "<gate-passed>true</gate-passed>")] })
    else if cfg.name = "ovp" then
      Except.ok { status := StepStatus.success,
                  output := [("text", Value.vStr "<ovp-approved>true</ovp-approved>")] }
    else if cfg.name = "blockedstep" then
      Except.ok { status := StepStatus.blocked }
    else Except.ok { status := StepStatus.success, output := [] }

/-- The challenge-stage Unit of the scenario. -/
def chUnit : SDNAC := ⟨"ch", ⟨"c", []⟩, ⟨"challenge", ""⟩⟩

/-- The generator-stage Unit of the scenario. -/
def genUnit : SDNAC := ⟨"gn", ⟨"c", []⟩, ⟨"gen", ""⟩⟩

/-- The gate-stage Unit of the scenario. -/
def gateUnitV2 : SDNAC := ⟨"gt", ⟨"c", []⟩, ⟨"gate", ""⟩⟩

/-- The observer-stage Unit of the scenario. -/
def ovpUnitV2 : SDNAC := ⟨"ov", ⟨"c", []⟩, ⟨"ovp", ""⟩⟩

/-- A generator Unit that blocks under `wV2`. -/
def blockedGenUnit : SDNAC := ⟨"bg", ⟨"c", []⟩, ⟨"blockedstep", ""⟩⟩

/-- A 4-stage loop whose generator blocks, with bound 1. -/
def cexV2 : DuoAgentV2 :=
  ⟨"cex2", chUnit, blockedGenUnit, gateUnitV2, ovpUnitV2, 1⟩

/-- Counterexample to C6 as frozen: (i) in the 2-stage loop the observer
Unit's outcome at the context it actually receives is `AWAITING_INPUT`,
yet the loop terminates `SUCCESS` (the approval flag is read anyway)
instead of short-circuiting with an awaiting-input status; (ii) in the
4-stage loop a `BLOCKED` generator stage does not terminate the loop,
which runs to `MAX_ITERATIONS` instead of returning a blocked status. -/
theorem c6_counterexample :
    ((SDNAC.execute w0 gateOvpUnit
        (some [("duo_iteration", Value.vInt 1), ("text", Value.vStr "done"),
               ("target_output", Value.vStr "done")])).status =
      SDNAStatus.awaitingInput) ∧
    ((DUOAgent.execute w0 cexDuo (some [])).status = DUOStatus.success) ∧
    ((SDNAC.execute wV2 blockedGenUnit (some [])).status =
      SDNAStatus.blocked) ∧
    ((DuoAgentV2.execute wV2 cexV2 (some [])).status =
      DUOv2Status.maxIterations) :=
  ⟨rfl, rfl, rfl, rfl⟩

/-!
## Claim C7 — gate failure skips the observer and restarts the loop
-/

/-- The 4-stage scenario agent: gate fails on iteration 1, passes on
iteration 2, observer approves. -/
def scV2 : DuoAgentV2 := ⟨"v2", chUnit, genUnit, gateUnitV2, ovpUnitV2, 3⟩

/-- C7: in any 4-stage loop iteration where no stage errors and the
gate's extracted `gate-passed` tag is not case-insensitively `"true"`,
the loop recurses straight into the next iteration starting at the
challenge stage, with the gate's feedback (or the default) seeded at
`attempt_feedback`, counting one challenge/target/gate call and no
observer call; in the concrete scenario (gate fails on iteration 1,
passes on iteration 2, observer approves) the loop succeeds after 2
iterations with challenge and target called exactly twice and the
observer exactly once. -/
theorem c7_gate_fail_skips_observer :
    (∀ (w : World) (a : DuoAgentV2) (r iter0 : Nat) (ctx : Ctx)
        (cc tc gc oc : Nat),
      let ctx0 := ctxSet ctx "duo_iteration" (Value.vInt (iter0 + 1))
      let res1 := SDNAC.execute w a.ariadne (some ctx0)
      let out1 := textOf res1.context
      let ctx1 := ctxSet ctx0 "challenge"
        (Value.vStr (pyOrStr (tagsGet (extract_tags out1 ["challenge"])
          "challenge") out1))
      let res2 := SDNAC.execute w a.poimandres (some ctx1)
      let out2 := textOf res2.context
      let ctx2 := ctxSet ctx1 "deliverable"
        (Value.vStr (pyOrStr (tagsGet (extract_tags out2 ["deliverable"])
          "deliverable") out2))
      let res3 := SDNAC.execute w a.ariadneGate (some ctx2)
      let tags3 := extract_tags (textOf res3.context)
        ["gate-passed", "gate-feedback"]
      res1.status ≠ SDNAStatus.error →
      res2.status ≠ SDNAStatus.error →
      res3.status ≠ SDNAStatus.error →
      tag_equals tags3 "gate-passed" "true" = false →
      duoV2Loop w a (r + 1) iter0 ctx cc tc gc oc =
        duoV2Loop w a r (iter0 + 1)
          (ctxSet ctx2 "attempt_feedback"
            (Value.vStr (pyOrStr (tagsGet tags3 "gate-feedback")
              "Gate rejected, try again")))
          (cc + 1) (tc + 1) (gc + 1) oc) ∧
    ((DuoAgentV2.executeTrace wV2 scV2 (some [])).result.status =
        DUOv2Status.success ∧
      (DuoAgentV2.executeTrace wV2 scV2 (some [])).result.iterations = 2 ∧
      (DuoAgentV2.executeTrace wV2 scV2 (some [])).challengeCalls = 2 ∧
      (DuoAgentV2.executeTrace wV2 scV2 (some [])).targetCalls = 2 ∧
      (DuoAgentV2.executeTrace wV2 scV2 (some [])).gateCalls = 2 ∧
      (DuoAgentV2.executeTrace wV2 scV2 (some [])).ovpCalls = 1) := by
  constructor
  · intro w a r iter0 ctx cc tc gc oc
    dsimp only
    intro h1 h2 h3 hg
    simp only [duoV2Loop]
    simp [h1, h2, h3, hg]
  · exact ⟨rfl, rfl, rfl, rfl, rfl, rfl⟩

/-- Witness for C7: the gate-fail step applied to the scenario loop's
first iteration. -/
theorem c7_witness :
    duoV2Loop wV2 scV2 3 0
        [("attempt_feedback", Value.vStr "(first attempt)")] 0 0 0 0 =
      duoV2Loop wV2 scV2 2 1
        [("attempt_feedback", Value.vStr "fix"),
         ("duo_iteration", Value.vInt 1),
         ("challenge", Value.vStr "do it"),
         ("deliverable", Value.vStr "thing")] 1 1 1 0 :=
  c7_gate_fail_skips_observer.1 wV2 scV2 2 0
    [("attempt_feedback", Value.vStr "(first attempt)")] 0 0 0 0
    (by decide) (by decide) (by decide) (by decide)
